import Mathlib

/-!
Shallow embedding of the BMP280 asynchronous driver core
(`src/bmp280.c`, `src/bmp280.h`, `src/bmp280_private.h`) and proofs of the
specification claims about it.

Machine integers are modelled as `Int` with explicit two's-complement
wrapping (`wrap 32`, `wrap 64`) at every C arithmetic operation, arithmetic
right shift as floor division by a power of two, and C signed division
(truncation toward zero) as `Int.div`.
-/

namespace BMP280

/-- `2 ^ n` as an integer (computed on `Nat` so that it reduces cheaply). -/
def pow2 (n : Nat) : Int := ((2 ^ n : Nat) : Int)

/-- Two's-complement wrap of an integer to a `w`-bit signed value:
the unique representative in `[-2^(w-1), 2^(w-1))` congruent mod `2^w`. -/
@[irreducible] def wrap (w : Nat) (x : Int) : Int := (x + pow2 (w - 1)) % pow2 w - pow2 (w - 1)

/-- C `int32_t` wrap. -/
def i32 (x : Int) : Int := wrap 32 x

/-- C `int64_t` wrap. -/
def i64 (x : Int) : Int := wrap 64 x

/-- C cast of a 64-bit signed value to `uint32_t`: the low 32 bits, unsigned. -/
def u32 (x : Int) : Int := x % pow2 32

/-- Arithmetic right shift (`>>` on a signed value in C): floor division. -/
def sar (x : Int) (n : Nat) : Int := Int.fdiv x (pow2 n)

/-- Temperature calibration coefficients (`CalibTemp` in `bmp280_private.h`). -/
structure CalibTemp where
  dig_T1 : Int
  dig_T2 : Int
  dig_T3 : Int
  deriving DecidableEq, Repr

/-- Pressure calibration coefficients (`CalibPres` in `bmp280_private.h`). -/
structure CalibPres where
  dig_P1 : Int
  dig_P2 : Int
  dig_P3 : Int
  dig_P4 : Int
  dig_P5 : Int
  dig_P6 : Int
  dig_P7 : Int
  dig_P8 : Int
  dig_P9 : Int
  deriving DecidableEq, Repr

/-- `compensate_temp` from `bmp280.c`: int32 fixed-point temperature
compensation.  Returns `(T, t_fine)`: the compensated temperature in
0.01 DegC units together with the fine-resolution intermediate that the
source stores through the `t_fine` out-parameter. -/
def compensate_temp (ct : CalibTemp) (temp_raw : Int) : Int × Int :=
  let var1 := sar (i32 (i32 (sar temp_raw 3 - i32 (ct.dig_T1 * 2)) * ct.dig_T2)) 11
  let var2 := sar (i32 (sar (i32 ((sar temp_raw 4 - ct.dig_T1) * (sar temp_raw 4 - ct.dig_T1))) 12 * ct.dig_T3)) 14
  let t_fine := i32 (var1 + var2)
  let T := sar (i32 (t_fine * 5 + 128)) 8
  (T, t_fine)

/-- The first denominator term `var1` of `compensate_pres` in `bmp280.c`,
as it stands right before the division guard (`if (var1 == 0)`). -/
def pres_var1 (cp : CalibPres) (t_fine : Int) : Int :=
  let v := i64 (t_fine - 128000)
  let a := i64 (sar (i64 (i64 (v * v) * cp.dig_P3)) 8 + i64 (i64 (v * cp.dig_P2) * pow2 12))
  sar (i64 (i64 (pow2 47 + a) * cp.dig_P1)) 33

/-- The accumulator `var2` of `compensate_pres` at the point of the division. -/
def pres_var2 (cp : CalibPres) (t_fine : Int) : Int :=
  let v := i64 (t_fine - 128000)
  let b := i64 (i64 (v * v) * cp.dig_P6)
  let c := i64 (b + i64 (i64 (v * cp.dig_P5) * pow2 17))
  i64 (c + i64 (cp.dig_P4 * pow2 35))

/-- `compensate_pres` from `bmp280.c`: int64 fixed-point pressure
compensation.  Returns the pressure in Pa as a Q24.8 value (the C function
returns `uint32_t`).  When the denominator term is zero the source returns 0
instead of dividing. -/
def compensate_pres (cp : CalibPres) (pres_raw t_fine : Int) : Int :=
  let var1 := pres_var1 cp t_fine
  let var2 := pres_var2 cp t_fine
  if var1 = 0 then 0
  else
    let p0 := i64 (1048576 - pres_raw)
    let p1 := Int.tdiv (i64 (i64 (i64 (p0 * pow2 31) - var2) * 3125)) var1
    let v1 := sar (i64 (i64 (cp.dig_P9 * sar p1 13) * sar p1 13)) 25
    let v2 := sar (i64 (cp.dig_P8 * p1)) 19
    let p2 := i64 (sar (i64 (i64 (p1 + v1) + v2)) 8 + i64 (cp.dig_P7 * pow2 4))
    u32 p2

/-- `temp_pres_bytes_to_raw_val` from `bmp280.c`: 20-bit raw ADC value from
three register bytes (`(b0<<12) | (b1<<4) | ((b2 & 0xF0)>>4)`, then cast
`uint32_t` → `int32_t`). -/
def temp_pres_bytes_to_raw_val (b0 b1 b2 : Nat) : Int :=
  i32 (((b0 <<< 12) ||| (b1 <<< 4) ||| ((b2 &&& 0xF0) >>> 4) : Nat) : Int)

/-- `two_little_endian_bytes_to_uint16` from `bmp280.c`. -/
def two_little_endian_bytes_to_uint16 (b0 b1 : Nat) : Nat :=
  (b1 <<< 8) ||| b0

/-- `two_little_endian_bytes_to_int16` from `bmp280.c`: the unsigned 16-bit
little-endian value reinterpreted as a signed 16-bit integer. -/
def two_little_endian_bytes_to_int16 (b0 b1 : Nat) : Int :=
  wrap 16 (((b1 <<< 8) ||| b0 : Nat) : Int)

/-- `data[i]` on the C byte buffer. -/
def byteAt (data : List Nat) (i : Nat) : Nat := data.getD i 0

/-- `convert_temp_calib_reg_vals_to_calib_values` from `bmp280.c`. -/
def convert_temp_calib_reg_vals_to_calib_values (data : List Nat) : CalibTemp :=
  { dig_T1 := (two_little_endian_bytes_to_uint16 (byteAt data 0) (byteAt data 1) : Int)
  , dig_T2 := two_little_endian_bytes_to_int16 (byteAt data 2) (byteAt data 3)
  , dig_T3 := two_little_endian_bytes_to_int16 (byteAt data 4) (byteAt data 5) }

/-- `convert_pres_calib_reg_vals_to_calib_values` from `bmp280.c`. -/
def convert_pres_calib_reg_vals_to_calib_values (data : List Nat) : CalibPres :=
  { dig_P1 := (two_little_endian_bytes_to_uint16 (byteAt data 0) (byteAt data 1) : Int)
  , dig_P2 := two_little_endian_bytes_to_int16 (byteAt data 2) (byteAt data 3)
  , dig_P3 := two_little_endian_bytes_to_int16 (byteAt data 4) (byteAt data 5)
  , dig_P4 := two_little_endian_bytes_to_int16 (byteAt data 6) (byteAt data 7)
  , dig_P5 := two_little_endian_bytes_to_int16 (byteAt data 8) (byteAt data 9)
  , dig_P6 := two_little_endian_bytes_to_int16 (byteAt data 10) (byteAt data 11)
  , dig_P7 := two_little_endian_bytes_to_int16 (byteAt data 12) (byteAt data 13)
  , dig_P8 := two_little_endian_bytes_to_int16 (byteAt data 14) (byteAt data 15)
  , dig_P9 := two_little_endian_bytes_to_int16 (byteAt data 16) (byteAt data 17) }

/-- Reference calibration data from the spec's end-to-end example. -/
def refCalibTemp : CalibTemp := { dig_T1 := 27504, dig_T2 := 26435, dig_T3 := -1000 }

/-- Reference pressure calibration data from the spec's end-to-end example. -/
def refCalibPres : CalibPres :=
  { dig_P1 := 36477, dig_P2 := -10685, dig_P3 := 3024, dig_P4 := 2855
  , dig_P5 := 140, dig_P6 := -7, dig_P7 := 15500, dig_P8 := -14600, dig_P9 := 6000 }

/-! ## Result codes, register addresses and enumerations -/

/-- `BMP280_RESULT_CODE_OK`. -/
def RC_OK : Nat := 0
/-- `BMP280_RESULT_CODE_INVAL_ARG`. -/
def RC_INVAL_ARG : Nat := 1
/-- `BMP280_RESULT_CODE_NO_MEM`. -/
def RC_NO_MEM : Nat := 2
/-- `BMP280_RESULT_CODE_IO_ERR`. -/
def RC_IO_ERR : Nat := 3
/-- `BMP280_RESULT_CODE_DRIVER_ERR`. -/
def RC_DRIVER_ERR : Nat := 4
/-- `BMP280_RESULT_CODE_INVAL_USAGE`. -/
def RC_INVAL_USAGE : Nat := 5
/-- Modelled from the spec: `BMP280_RESULT_CODE_BUSY`, the rejection code of
the exclusivity check.  The enumerator is referenced by the repository's
tests but the header revision defining it is not under `src/`; only its
distinctness from the other codes matters here. -/
def RC_BUSY : Nat := 6

/-- `BMP280_IO_RESULT_CODE_OK` from `bmp280_defs.h`. -/
def IO_RC_OK : Nat := 0
/-- `BMP280_IO_RESULT_CODE_ERR` from `bmp280_defs.h`. -/
def IO_RC_ERR : Nat := 1

/-- `BMP280_MEAS_TYPE_ONLY_TEMP` from `bmp280.h`. -/
def MEAS_TYPE_ONLY_TEMP : Nat := 0
/-- `BMP280_MEAS_TYPE_TEMP_AND_PRES` from `bmp280.h`. -/
def MEAS_TYPE_TEMP_AND_PRES : Nat := 1

/-- `is_valid_meas_type` from `bmp280.c`. -/
def is_valid_meas_type (meas_type : Nat) : Bool :=
  meas_type == MEAS_TYPE_ONLY_TEMP || meas_type == MEAS_TYPE_TEMP_AND_PRES

/-- `is_valid_oversampling` from `bmp280.c` (`BMP280Oversampling` has
values 0..5). -/
def is_valid_oversampling (oversampling : Nat) : Bool :=
  oversampling == 0 || oversampling == 1 || oversampling == 2
    || oversampling == 3 || oversampling == 4 || oversampling == 5

/-- Validity of a `BMP280FilterCoeff` argument (values 0..4 in `bmp280.h`). -/
def is_valid_filter_coeff (filter_coeff : Nat) : Bool :=
  filter_coeff == 0 || filter_coeff == 1 || filter_coeff == 2
    || filter_coeff == 3 || filter_coeff == 4

/-- Validity of a `BMP280Spi3Wire` argument (values 0..1 in `bmp280.h`). -/
def is_valid_spi_3_wire (spi_3_wire : Nat) : Bool :=
  spi_3_wire == 0 || spi_3_wire == 1

/-! ## Register write values of the read-modify-write steps -/

/-- Write value of `read_meas_forced_mode_part_2` in `bmp280.c`:
`(read_buf[0] & ~0x3) | BMP280_BIT_MSK_POWER_MODE_FORCED`
(`~0x3` on a byte is `0xFC`). -/
def forced_mode_write_val (b : Nat) : Nat := (b &&& 0xFC) ||| 0x01

/-- Write value of `read_set_temp_oversamlping_part_2` in `bmp280.c`:
`(read_buf[0] & ~0xE0) | (oversampling << 5)` (`~0xE0` on a byte is `0x1F`). -/
def temp_oversampling_write_val (b x : Nat) : Nat := (b &&& 0x1F) ||| (x <<< 5)

/-- Write value of `read_set_pres_oversamlping_part_2` in `bmp280.c`:
`(read_buf[0] & ~0x1C) | (oversampling << 2)` (`~0x1C` on a byte is `0xE3`). -/
def pres_oversampling_write_val (b x : Nat) : Nat := (b &&& 0xE3) ||| (x <<< 2)

/-- Modelled from the spec: write value of the set-filter-coefficient step
(the implementation of `bmp280_set_filter_coefficient` is not under `src/`;
only its declaration in `bmp280.h` and its tests are).  Per the spec, the
CONFIG value is written back with only bits [4:2] replaced by the encoded
filter coefficient. -/
def filter_coeff_write_val (b c : Nat) : Nat := (b &&& 0xE3) ||| (c <<< 2)

/-- Modelled from the spec: write value of the set-interface-wire-mode step
(the implementation of `bmp280_set_spi_3_wire_interface` is not under
`src/`).  Per the spec, the CONFIG value is written back with only bit [0]
replaced by the wire-mode encoding. -/
def spi_3_wire_write_val (b w : Nat) : Nat := (b &&& 0xFE) ||| w

/-! ## Driver instance state and sequencing -/

/-- `BMP280Meas` from `bmp280.h`: contents of the caller-owned output
measurement structure. -/
structure Meas where
  temperature : Int
  pressure : Int
  deriving DecidableEq, Repr

/-- Per-instance state (`struct BMP280Struct` in `bmp280_private.h`), plus
the `busy` exclusivity flag.  The flag is modelled from the spec: the final
`bmp280.c`/`bmp280_private.h` revision carrying it is not under `src/`, only
its tests are; per the spec, busy is true for the whole span between a
command being accepted and its completion notification firing.
`measOut` models the contents of the caller-owned measurement structure the
instance currently points at; `hasCompleteCb` models whether a non-null
completion callback was recorded. -/
structure DriverState where
  busy : Bool
  hasCompleteCb : Bool
  measType : Nat
  timerPeriodMs : Nat
  oversampling : Nat
  filterCoeff : Nat
  spi3wire : Nat
  readBuf : List Nat
  calibTemp : CalibTemp
  calibPres : CalibPres
  isMeasInit : Bool
  measOut : Meas
  deriving DecidableEq, Repr

/-- A single asynchronous request issued to an injected collaborator. -/
inductive Request where
  | readRegs (startAddr numRegs : Nat)
  | writeReg (addr val : Nat)
  | startTimer (durationMs : Nat)
  deriving DecidableEq, Repr

/-- Outcome of running one continuation step: the new instance state, the
asynchronous requests it issued, and the result codes it delivered through
the caller's completion callback. -/
structure StepOut where
  state : DriverState
  requests : List Request
  delivered : List Nat
  deriving DecidableEq, Repr

/-- `start_sequence` from `bmp280.c`: records the completion callback.
Setting `busy` is modelled from the spec (step 3 of the sequencer contract:
record the callback, mark busy, issue the first step). -/
def start_sequence (s : DriverState) (cbPresent : Bool) : DriverState :=
  { s with hasCompleteCb := cbPresent, busy := true }

/-- `execute_complete_cb` from `bmp280.c` at a terminal step: delivers `rc`
through the completion callback when one is present.  Clearing `busy` is
modelled from the spec (steps 5-6 of the sequencer contract: clear busy and
deliver the result). -/
def finish_sequence (s : DriverState) (rc : Nat) : StepOut :=
  { state := { s with busy := false }
  , requests := []
  , delivered := if s.hasCompleteCb then [rc] else [] }

/-- `generic_io_complete_cb` from `bmp280.c`: terminal continuation mapping
the IO status to OK / IO_ERR, independent of any data read. -/
def generic_io_complete_cb (s : DriverState) (io_rc : Nat) : StepOut :=
  finish_sequence s (if io_rc == IO_RC_OK then RC_OK else RC_IO_ERR)

/-! ## Public command entry points

Each entry point performs its synchronous checks and, when accepted, records
the callback, marks the instance busy and issues its first asynchronous
request.  Null pointers are modelled by the `selfNull`-style flags.  The
busy guard (returning `RC_BUSY` with no side effects) is modelled from the
spec in every entry point: the `bmp280.c` revision carrying it is not under
`src/` (only its tests are); the synchronous argument checks come from the
`src/` code and precede it, matching the spec's check order. -/

/-- `bmp280_get_chip_id`. -/
def bmp280_get_chip_id (selfNull chipIdNull : Bool) (s : DriverState)
    (cbPresent : Bool) : Nat × DriverState × List Request :=
  if selfNull || chipIdNull then (RC_INVAL_ARG, s, [])
  else if s.busy then (RC_BUSY, s, [])
  else (RC_OK, start_sequence s cbPresent, [Request.readRegs 0xD0 1])

/-- `bmp280_reset_with_delay`. -/
def bmp280_reset_with_delay (selfNull : Bool) (s : DriverState)
    (cbPresent : Bool) : Nat × DriverState × List Request :=
  if selfNull then (RC_INVAL_ARG, s, [])
  else if s.busy then (RC_BUSY, s, [])
  else (RC_OK, start_sequence s cbPresent, [Request.writeReg 0xE0 0xB6])

/-- `bmp280_init_meas`. -/
def bmp280_init_meas (selfNull : Bool) (s : DriverState)
    (cbPresent : Bool) : Nat × DriverState × List Request :=
  if selfNull then (RC_INVAL_ARG, s, [])
  else if s.busy then (RC_BUSY, s, [])
  else (RC_OK, start_sequence s cbPresent, [Request.readRegs 0x88 24])

/-- `bmp280_read_meas_forced_mode`.  `measInit` is the current contents of
the caller's output structure that the instance is being pointed at. -/
def bmp280_read_meas_forced_mode (selfNull measNull : Bool) (s : DriverState)
    (meas_type : Nat) (meas_time_ms : Nat) (measInit : Meas)
    (cbPresent : Bool) : Nat × DriverState × List Request :=
  if selfNull || measNull || meas_time_ms == 0 || !is_valid_meas_type meas_type then
    (RC_INVAL_ARG, s, [])
  else if !s.isMeasInit then (RC_INVAL_USAGE, s, [])
  else if s.busy then (RC_BUSY, s, [])
  else
    let s1 := start_sequence s cbPresent
    let s2 := { s1 with measOut := measInit, measType := meas_type,
                        timerPeriodMs := meas_time_ms }
    (RC_OK, s2, [Request.readRegs 0xF4 1])

/-- `bmp280_set_temp_oversampling`. -/
def bmp280_set_temp_oversampling (selfNull : Bool) (s : DriverState)
    (oversampling : Nat) (cbPresent : Bool) : Nat × DriverState × List Request :=
  if selfNull || !is_valid_oversampling oversampling then (RC_INVAL_ARG, s, [])
  else if s.busy then (RC_BUSY, s, [])
  else
    let s1 := { start_sequence s cbPresent with oversampling := oversampling }
    (RC_OK, s1, [Request.readRegs 0xF4 1])

/-- `bmp280_set_pres_oversampling`. -/
def bmp280_set_pres_oversampling (selfNull : Bool) (s : DriverState)
    (oversampling : Nat) (cbPresent : Bool) : Nat × DriverState × List Request :=
  if selfNull || !is_valid_oversampling oversampling then (RC_INVAL_ARG, s, [])
  else if s.busy then (RC_BUSY, s, [])
  else
    let s1 := { start_sequence s cbPresent with oversampling := oversampling }
    (RC_OK, s1, [Request.readRegs 0xF4 1])

/-- Modelled from the spec: `bmp280_set_filter_coefficient` (its
implementation is not under `src/`; only its declaration in `bmp280.h` and
its tests are).  Per the spec: synchronous checks, exclusivity check, then
read the CONFIG register (0xF5) as the first step. -/
def bmp280_set_filter_coefficient (selfNull : Bool) (s : DriverState)
    (filter_coeff : Nat) (cbPresent : Bool) : Nat × DriverState × List Request :=
  if selfNull || !is_valid_filter_coeff filter_coeff then (RC_INVAL_ARG, s, [])
  else if s.busy then (RC_BUSY, s, [])
  else
    let s1 := { start_sequence s cbPresent with filterCoeff := filter_coeff }
    (RC_OK, s1, [Request.readRegs 0xF5 1])

/-- Modelled from the spec: `bmp280_set_spi_3_wire_interface` (its
implementation is not under `src/`; only its declaration in `bmp280.h` and
its tests are).  Per the spec: synchronous checks, exclusivity check, then
read the CONFIG register (0xF5) as the first step. -/
def bmp280_set_spi_3_wire_interface (selfNull : Bool) (s : DriverState)
    (spi_3_wire : Nat) (cbPresent : Bool) : Nat × DriverState × List Request :=
  if selfNull || !is_valid_spi_3_wire spi_3_wire then (RC_INVAL_ARG, s, [])
  else if s.busy then (RC_BUSY, s, [])
  else
    let s1 := { start_sequence s cbPresent with spi3wire := spi_3_wire }
    (RC_OK, s1, [Request.readRegs 0xF5 1])

/-! ## Continuation steps

The transport stores the bytes it read into `readBuf` before invoking the
continuation; theorems quantify over the buffer contents accordingly. -/

/-- `reset_with_delay_part_2` from `bmp280.c`: on write success start the
fixed 2 ms power-on-reset timer, on failure finish with IO_ERR (and never
start the timer). -/
def reset_with_delay_part_2 (s : DriverState) (io_rc : Nat) : StepOut :=
  if io_rc != IO_RC_OK then finish_sequence s RC_IO_ERR
  else { state := s, requests := [Request.startTimer 2], delivered := [] }

/-- `reset_with_delay_part_3` from `bmp280.c`: timer expired, finish OK. -/
def reset_with_delay_part_3 (s : DriverState) : StepOut :=
  finish_sequence s RC_OK

/-- `init_meas_part_2` from `bmp280.c`: parse the 24 calibration bytes
(first 6 for temperature, last 18 for pressure), set the initialized flag,
finish OK; on read failure finish IO_ERR without touching the flag. -/
def init_meas_part_2 (s : DriverState) (io_rc : Nat) : StepOut :=
  if io_rc != IO_RC_OK then finish_sequence s RC_IO_ERR
  else
    let ct := convert_temp_calib_reg_vals_to_calib_values s.readBuf
    let cp := convert_pres_calib_reg_vals_to_calib_values (s.readBuf.drop 6)
    finish_sequence { s with calibTemp := ct, calibPres := cp, isMeasInit := true } RC_OK

/-- `read_meas_forced_mode_part_2` from `bmp280.c`: write CTRL_MEAS back
with bits [1:0] set to forced mode. -/
def read_meas_forced_mode_part_2 (s : DriverState) (io_rc : Nat) : StepOut :=
  if io_rc != IO_RC_OK then finish_sequence s RC_IO_ERR
  else { state := s
       , requests := [Request.writeReg 0xF4 (forced_mode_write_val (byteAt s.readBuf 0))]
       , delivered := [] }

/-- `read_meas_forced_mode_part_3` from `bmp280.c`: start the caller-chosen
measurement timer. -/
def read_meas_forced_mode_part_3 (s : DriverState) (io_rc : Nat) : StepOut :=
  if io_rc != IO_RC_OK then finish_sequence s RC_IO_ERR
  else { state := s, requests := [Request.startTimer s.timerPeriodMs], delivered := [] }

/-- `read_meas_forced_mode_part_4` from `bmp280.c`: timer expired; read 3
bytes from 0xFA (temperature only) or 6 bytes from 0xF7 (pressure first). -/
def read_meas_forced_mode_part_4 (s : DriverState) : StepOut :=
  if s.measType == MEAS_TYPE_ONLY_TEMP then
    { state := s, requests := [Request.readRegs 0xFA 3], delivered := [] }
  else if s.measType == MEAS_TYPE_TEMP_AND_PRES then
    { state := s, requests := [Request.readRegs 0xF7 6], delivered := [] }
  else finish_sequence s RC_DRIVER_ERR

/-- `read_meas_forced_mode_part_5` from `bmp280.c`: compensate temperature
(and pressure when requested) from the raw register bytes and finish OK. -/
def read_meas_forced_mode_part_5 (s : DriverState) (io_rc : Nat) : StepOut :=
  if io_rc != IO_RC_OK then finish_sequence s RC_IO_ERR
  else if !(s.measType == MEAS_TYPE_ONLY_TEMP || s.measType == MEAS_TYPE_TEMP_AND_PRES) then
    finish_sequence s RC_DRIVER_ERR
  else
    let calculate_pres := s.measType == MEAS_TYPE_TEMP_AND_PRES
    let temp_start_idx := if calculate_pres then 3 else 0
    let temp_raw := temp_pres_bytes_to_raw_val (byteAt s.readBuf temp_start_idx)
        (byteAt s.readBuf (temp_start_idx + 1)) (byteAt s.readBuf (temp_start_idx + 2))
    let tc := compensate_temp s.calibTemp temp_raw
    let s1 := { s with measOut := { s.measOut with temperature := tc.1 } }
    let s2 :=
      if calculate_pres then
        let pres_raw := temp_pres_bytes_to_raw_val (byteAt s1.readBuf 0)
            (byteAt s1.readBuf 1) (byteAt s1.readBuf 2)
        { s1 with measOut :=
          { s1.measOut with pressure := compensate_pres s1.calibPres pres_raw tc.2 } }
      else s1
    finish_sequence s2 RC_OK

/-- `read_set_temp_oversamlping_part_2` from `bmp280.c`. -/
def read_set_temp_oversamlping_part_2 (s : DriverState) (io_rc : Nat) : StepOut :=
  if io_rc != IO_RC_OK then finish_sequence s RC_IO_ERR
  else { state := s
       , requests := [Request.writeReg 0xF4
           (temp_oversampling_write_val (byteAt s.readBuf 0) s.oversampling)]
       , delivered := [] }

/-- `read_set_pres_oversamlping_part_2` from `bmp280.c`. -/
def read_set_pres_oversamlping_part_2 (s : DriverState) (io_rc : Nat) : StepOut :=
  if io_rc != IO_RC_OK then finish_sequence s RC_IO_ERR
  else { state := s
       , requests := [Request.writeReg 0xF4
           (pres_oversampling_write_val (byteAt s.readBuf 0) s.oversampling)]
       , delivered := [] }

/-- Modelled from the spec: the second step of `bmp280_set_filter_coefficient`
(implementation not under `src/`): write CONFIG back with bits [4:2]
replaced by the encoded filter coefficient; completion is the generic
OK / IO_ERR terminal step. -/
def set_filter_coefficient_part_2 (s : DriverState) (io_rc : Nat) : StepOut :=
  if io_rc != IO_RC_OK then finish_sequence s RC_IO_ERR
  else { state := s
       , requests := [Request.writeReg 0xF5
           (filter_coeff_write_val (byteAt s.readBuf 0) s.filterCoeff)]
       , delivered := [] }

/-- Modelled from the spec: the second step of
`bmp280_set_spi_3_wire_interface` (implementation not under `src/`): write
CONFIG back with bit [0] replaced by the wire-mode encoding. -/
def set_spi_3_wire_part_2 (s : DriverState) (io_rc : Nat) : StepOut :=
  if io_rc != IO_RC_OK then finish_sequence s RC_IO_ERR
  else { state := s
       , requests := [Request.writeReg 0xF5
           (spi_3_wire_write_val (byteAt s.readBuf 0) s.spi3wire)]
       , delivered := [] }

/-! ## Whole-sequence runs used by the claims -/

/-- Complete run of the get-chip-id sequence: the entry point issues the
read of the identifier register, the transport stores `idByte` at the
caller's pointer and reports `io_rc`, and the generic terminal step runs.
Returns the byte stored at the caller's pointer and the delivered result
codes. -/
def run_get_chip_id (s : DriverState) (cbPresent : Bool) (idByte io_rc : Nat) :
    Nat × List Nat :=
  match bmp280_get_chip_id false false s cbPresent with
  | (rc, s1, _) =>
    if rc == RC_OK then (idByte, (generic_io_complete_cb s1 io_rc).delivered)
    else (0, [])

/-- Complete run of the reset-with-delay sequence for a given IO status of
the reset-register write.  Returns all requests issued over the run (in
order) and the delivered result codes. -/
def run_reset_with_delay (s : DriverState) (cbPresent : Bool) (write_io_rc : Nat) :
    List Request × List Nat :=
  match bmp280_reset_with_delay false s cbPresent with
  | (rc, s1, reqs1) =>
    if rc != RC_OK then (reqs1, [])
    else
      let o2 := reset_with_delay_part_2 s1 write_io_rc
      if write_io_rc == IO_RC_OK then
        let o3 := reset_with_delay_part_3 o2.state
        (reqs1 ++ o2.requests ++ o3.requests, o2.delivered ++ o3.delivered)
      else (reqs1 ++ o2.requests, o2.delivered)

/-- Complete run of the set-filter-coefficient sequence: the entry point,
then the transport stores the CONFIG byte `b` and reports `read_io_rc`, then
the write step and its generic completion with `write_io_rc`.  Returns all
requests issued (in order) and the delivered result codes. -/
def run_set_filter_coefficient (s : DriverState) (cbPresent : Bool) (c : Nat)
    (read_io_rc b write_io_rc : Nat) : List Request × List Nat :=
  match bmp280_set_filter_coefficient false s c cbPresent with
  | (rc, s1, reqs1) =>
    if rc != RC_OK then (reqs1, [])
    else
      let s1b := { s1 with readBuf := [b] }
      let o2 := set_filter_coefficient_part_2 s1b read_io_rc
      if read_io_rc == IO_RC_OK then
        let o3 := generic_io_complete_cb o2.state write_io_rc
        (reqs1 ++ o2.requests ++ o3.requests, o2.delivered ++ o3.delivered)
      else (reqs1 ++ o2.requests, o2.delivered)

/-- Complete run of the set-interface-wire-mode sequence, analogous to
`run_set_filter_coefficient`. -/
def run_set_spi_3_wire_interface (s : DriverState) (cbPresent : Bool) (w : Nat)
    (read_io_rc b write_io_rc : Nat) : List Request × List Nat :=
  match bmp280_set_spi_3_wire_interface false s w cbPresent with
  | (rc, s1, reqs1) =>
    if rc != RC_OK then (reqs1, [])
    else
      let s1b := { s1 with readBuf := [b] }
      let o2 := set_spi_3_wire_part_2 s1b read_io_rc
      if read_io_rc == IO_RC_OK then
        let o3 := generic_io_complete_cb o2.state write_io_rc
        (reqs1 ++ o2.requests ++ o3.requests, o2.delivered ++ o3.delivered)
      else (reqs1 ++ o2.requests, o2.delivered)

/-! ## Concrete sample data (from the repository's reference dataset) -/

/-- The 24 calibration register bytes of the reference dataset
(datasheet example, used by the repository's tests). -/
def defaultCalibBytes : List Nat :=
  [0x70, 0x6B, 0x43, 0x67, 0x18, 0xFC, 0x7D, 0x8E, 0x43, 0xD6, 0xD0, 0x0B,
   0x27, 0x0B, 0x8C, 0x00, 0xF9, 0xFF, 0x8C, 0x3C, 0xF8, 0xC6, 0x70, 0x17]

/-- An all-zero pressure calibration set (used to exhibit a zero
denominator in the pressure compensation). -/
def zeroCalibPres : CalibPres :=
  { dig_P1 := 0, dig_P2 := 0, dig_P3 := 0, dig_P4 := 0, dig_P5 := 0
  , dig_P6 := 0, dig_P7 := 0, dig_P8 := 0, dig_P9 := 0 }

/-- A zeroed measurement output structure. -/
def zeroMeas : Meas := { temperature := 0, pressure := 0 }

/-- A sample idle instance: not busy, calibration initialized with the
reference dataset. -/
def idleState : DriverState :=
  { busy := false, hasCompleteCb := false, measType := 0, timerPeriodMs := 5
  , oversampling := 0, filterCoeff := 0, spi3wire := 0
  , readBuf := defaultCalibBytes, calibTemp := refCalibTemp
  , calibPres := refCalibPres, isMeasInit := true, measOut := zeroMeas }

/-- A sample instance with a sequence in flight. -/
def busyState : DriverState := { idleState with busy := true }

/-- A sample instance whose calibration has not been initialized. -/
def uninitState : DriverState := { idleState with isMeasInit := false }

/-- A sample idle instance configured for a temperature-only measurement,
with raw temperature bytes in the read buffer and a marked prior pressure
value in the output structure. -/
def tempOnlyState : DriverState :=
  { idleState with
      measType := 0
      readBuf := [0x7E, 0xED, 0x00]
      measOut := { temperature := 0, pressure := 77 } }

/-! ## Bit-level helper -/

/-- Little-endian recombination: for a low byte `b < 256`,
`(a <<< 8) ||| b` is `256 * a + b`. -/
theorem shiftLeft8_lor_eq (a b : Nat) (h : b < 256) :
    (a <<< 8) ||| b = 256 * a + b := by
  have h2 : b < 2 ^ 8 := h
  apply Nat.eq_of_testBit_eq
  intro i
  rw [Nat.testBit_lor, Nat.testBit_shiftLeft,
      show (256 : Nat) * a = 2 ^ 8 * a from by norm_num,
      Nat.testBit_mul_pow_two_add a h2 i]
  by_cases hi : i < 8
  · simp [hi, Nat.not_le.mpr hi]
  · simp [hi, Nat.not_lt.mp hi,
      Nat.testBit_lt_two_pow
        (Nat.lt_of_lt_of_le h2 (Nat.pow_le_pow_right (by norm_num) (Nat.not_lt.mp hi)))]

/-! ## Claim theorems -/

/-- C2: on the reference dataset (T1=27504, T2=26435, T3=-1000, P1=36477,
P2=-10685, P3=3024, P4=2855, P5=140, P6=-7, P7=15500, P8=-14600, P9=6000),
the 20-bit raw extraction of temperature bytes 0x7E,0xED,0x00 and pressure
bytes 0x65,0x5A,0xC0 followed by fixed-point temperature compensation and
pressure compensation (reusing the retained fine-temperature intermediate)
yields exactly temperature 2508 (0.01 DegC units) and pressure 25767233
(Q24.8 Pa). -/
theorem C2_reference_dataset_compensation :
    temp_pres_bytes_to_raw_val 0x7E 0xED 0x00 = 519888
  ∧ temp_pres_bytes_to_raw_val 0x65 0x5A 0xC0 = 415148
  ∧ (compensate_temp refCalibTemp (temp_pres_bytes_to_raw_val 0x7E 0xED 0x00)).1 = 2508
  ∧ compensate_pres refCalibPres (temp_pres_bytes_to_raw_val 0x65 0x5A 0xC0)
      (compensate_temp refCalibTemp (temp_pres_bytes_to_raw_val 0x7E 0xED 0x00)).2
      = 25767233 := by
  refine ⟨by with_unfolding_all decide, by with_unfolding_all decide,
    by with_unfolding_all decide, by with_unfolding_all decide⟩

/-- C7: whenever the first denominator term `var1` of the pressure
compensation evaluates to zero, `compensate_pres` returns 0; the division
by `var1` sits in the other branch of the guard, so it is never a division
by zero. -/
theorem C7_pres_div_by_zero_guard (cp : CalibPres) (pres_raw t_fine : Int)
    (h : pres_var1 cp t_fine = 0) :
    compensate_pres cp pres_raw t_fine = 0 := by
  simp [compensate_pres, h]

/-- Witness for C7 at the all-zero pressure calibration set. -/
theorem C7_pres_div_by_zero_guard_witness :
    pres_var1 zeroCalibPres 0 = 0 ∧ compensate_pres zeroCalibPres 0 0 = 0 :=
  ⟨by with_unfolding_all decide,
   C7_pres_div_by_zero_guard zeroCalibPres 0 0 (by with_unfolding_all decide)⟩

set_option maxRecDepth 4096

/-- C3: for every CTRL_MEAS byte `v` and valid oversampling option `x`, the
value written by the set-temperature-oversampling step equals `v` with only
bits [7:5] replaced by `x`, the value written by the
set-pressure-oversampling step equals `v` with only bits [4:2] replaced by
`x`, and the value written by the forced-mode step equals `v` with only
bits [1:0] replaced by 01; every bit outside the target field is
byte-identical to the read value. -/
theorem C3_ctrl_meas_read_modify_write (v x : Nat) (hv : v < 256)
    (hx : is_valid_oversampling x = true) :
    (temp_oversampling_write_val v x >>> 5 = x
      ∧ ∀ i, i < 5 → (temp_oversampling_write_val v x).testBit i = v.testBit i)
  ∧ ((pres_oversampling_write_val v x >>> 2) &&& 0x7 = x
      ∧ ∀ i, i < 8 → i < 2 ∨ 5 ≤ i → (pres_oversampling_write_val v x).testBit i = v.testBit i)
  ∧ (forced_mode_write_val v &&& 0x3 = 1
      ∧ ∀ i, i < 8 → 2 ≤ i → (forced_mode_write_val v).testBit i = v.testBit i) := by
  have hx6 : x < 6 := by
    simp only [is_valid_oversampling, Bool.or_eq_true, beq_iff_eq] at hx
    omega
  have key1 : ∀ v < 256, ∀ x < 6,
      temp_oversampling_write_val v x >>> 5 = x
        ∧ ∀ i, i < 5 → (temp_oversampling_write_val v x).testBit i = v.testBit i := by
    decide
  have key2 : ∀ v < 256, ∀ x < 6,
      (pres_oversampling_write_val v x >>> 2) &&& 0x7 = x
        ∧ ∀ i, i < 8 → i < 2 ∨ 5 ≤ i →
          (pres_oversampling_write_val v x).testBit i = v.testBit i := by
    decide
  have key3 : ∀ v < 256,
      forced_mode_write_val v &&& 0x3 = 1
        ∧ ∀ i, i < 8 → 2 ≤ i → (forced_mode_write_val v).testBit i = v.testBit i := by
    decide
  exact ⟨key1 v hv x hx6, key2 v hv x hx6, key3 v hv⟩

/-- Witness for C3 at `v = 0x80`, `x = 3` (oversampling x4). -/
theorem C3_ctrl_meas_read_modify_write_witness :
    temp_oversampling_write_val 0x80 3 >>> 5 = 3
  ∧ (pres_oversampling_write_val 0x80 3 >>> 2) &&& 0x7 = 3
  ∧ forced_mode_write_val 0x80 &&& 0x3 = 1 :=
  ⟨(C3_ctrl_meas_read_modify_write 0x80 3 (by decide) (by decide)).1.1,
   (C3_ctrl_meas_read_modify_write 0x80 3 (by decide) (by decide)).2.1.1,
   (C3_ctrl_meas_read_modify_write 0x80 3 (by decide) (by decide)).2.2.1⟩

/-- C1: every public command called with valid arguments on an instance
whose sequence is still in flight returns BUSY immediately, issues no new
I/O or timer request, and leaves the instance state unchanged. -/
theorem C1_busy_rejects_all_commands (s : DriverState) (cbPresent : Bool)
    (hb : s.busy = true) :
    bmp280_get_chip_id false false s cbPresent = (RC_BUSY, s, [])
  ∧ bmp280_reset_with_delay false s cbPresent = (RC_BUSY, s, [])
  ∧ bmp280_init_meas false s cbPresent = (RC_BUSY, s, [])
  ∧ (∀ mt t meas, is_valid_meas_type mt = true → t ≠ 0 → s.isMeasInit = true →
      bmp280_read_meas_forced_mode false false s mt t meas cbPresent = (RC_BUSY, s, []))
  ∧ (∀ x, is_valid_oversampling x = true →
      bmp280_set_temp_oversampling false s x cbPresent = (RC_BUSY, s, [])
      ∧ bmp280_set_pres_oversampling false s x cbPresent = (RC_BUSY, s, []))
  ∧ (∀ c, is_valid_filter_coeff c = true →
      bmp280_set_filter_coefficient false s c cbPresent = (RC_BUSY, s, []))
  ∧ (∀ w, is_valid_spi_3_wire w = true →
      bmp280_set_spi_3_wire_interface false s w cbPresent = (RC_BUSY, s, [])) := by
  refine ⟨?_, ?_, ?_, ?_, ?_, ?_, ?_⟩
  · simp [bmp280_get_chip_id, hb]
  · simp [bmp280_reset_with_delay, hb]
  · simp [bmp280_init_meas, hb]
  · intro mt t meas hmt ht hinit
    have ht' : (t == 0) = false := by simpa using ht
    simp [bmp280_read_meas_forced_mode, hmt, ht', hinit, hb]
  · intro x hx
    constructor
    · simp [bmp280_set_temp_oversampling, hx, hb]
    · simp [bmp280_set_pres_oversampling, hx, hb]
  · intro c hc
    simp [bmp280_set_filter_coefficient, hc, hb]
  · intro w hw
    simp [bmp280_set_spi_3_wire_interface, hw, hb]

/-- Witness for C1 at the sample busy instance. -/
theorem C1_busy_rejects_all_commands_witness :
    busyState.busy = true
  ∧ bmp280_get_chip_id false false busyState true = (RC_BUSY, busyState, [])
  ∧ bmp280_read_meas_forced_mode false false busyState 0 5 zeroMeas true
      = (RC_BUSY, busyState, []) :=
  ⟨rfl, (C1_busy_rejects_all_commands busyState true rfl).1,
   (C1_busy_rejects_all_commands busyState true rfl).2.2.2.1 0 5 zeroMeas
     (by decide) (by decide) rfl⟩

/-- C4: `bmp280_read_meas_forced_mode` returns INVALID_ARG synchronously
for a null instance, a null output pointer, a zero measurement time or an
invalid measurement type, and INVALID_USAGE when the checks pass but the
calibration-initialized flag is false; in every failure case no sequence is
started, no request is issued and the instance state is unchanged. -/
theorem C4_forced_mode_sync_errors (s : DriverState) (mt t : Nat) (meas : Meas)
    (cbPresent : Bool) :
    (∀ measNull, bmp280_read_meas_forced_mode true measNull s mt t meas cbPresent
      = (RC_INVAL_ARG, s, []))
  ∧ bmp280_read_meas_forced_mode false true s mt t meas cbPresent
      = (RC_INVAL_ARG, s, [])
  ∧ (t = 0 → bmp280_read_meas_forced_mode false false s mt t meas cbPresent
      = (RC_INVAL_ARG, s, []))
  ∧ (is_valid_meas_type mt = false →
      bmp280_read_meas_forced_mode false false s mt t meas cbPresent
      = (RC_INVAL_ARG, s, []))
  ∧ (is_valid_meas_type mt = true → t ≠ 0 → s.isMeasInit = false →
      bmp280_read_meas_forced_mode false false s mt t meas cbPresent
      = (RC_INVAL_USAGE, s, [])) := by
  refine ⟨?_, ?_, ?_, ?_, ?_⟩
  · intro measNull
    simp [bmp280_read_meas_forced_mode]
  · simp [bmp280_read_meas_forced_mode]
  · intro ht
    simp [bmp280_read_meas_forced_mode, ht]
  · intro hmt
    simp [bmp280_read_meas_forced_mode, hmt]
  · intro hmt ht hinit
    have ht' : (t == 0) = false := by simpa using ht
    simp [bmp280_read_meas_forced_mode, hmt, ht', hinit]

/-- Witness for C4: null instance and uninitialized calibration. -/
theorem C4_forced_mode_sync_errors_witness :
    bmp280_read_meas_forced_mode true false idleState 0 5 zeroMeas true
      = (RC_INVAL_ARG, idleState, [])
  ∧ bmp280_read_meas_forced_mode false false uninitState 0 5 zeroMeas true
      = (RC_INVAL_USAGE, uninitState, []) :=
  ⟨(C4_forced_mode_sync_errors idleState 0 5 zeroMeas true).1 false,
   (C4_forced_mode_sync_errors uninitState 0 5 zeroMeas true).2.2.2.2
     (by decide) (by decide) rfl⟩

/-- `byteAt` on a cons cell at index 0. -/
theorem byteAt_cons_zero (a : Nat) (l : List Nat) : byteAt (a :: l) 0 = a := rfl

/-- `byteAt` on a cons cell at a successor index. -/
theorem byteAt_cons_succ (a : Nat) (l : List Nat) (n : Nat) :
    byteAt (a :: l) (n + 1) = byteAt l n := rfl

/-- The unsigned little-endian 16-bit recombination, arithmetically. -/
theorem le16_unsigned (lo hi : Nat) (h : lo < 256) :
    ((two_little_endian_bytes_to_uint16 lo hi : Nat) : Int) = (lo : Int) + 256 * (hi : Int) := by
  unfold two_little_endian_bytes_to_uint16
  rw [shiftLeft8_lor_eq hi lo h]
  push_cast
  ring

/-- The signed little-endian 16-bit recombination, arithmetically. -/
theorem le16_signed (lo hi : Nat) (h : lo < 256) :
    two_little_endian_bytes_to_int16 lo hi = wrap 16 ((lo : Int) + 256 * (hi : Int)) := by
  unfold two_little_endian_bytes_to_int16
  rw [shiftLeft8_lor_eq hi lo h]
  congr 1
  push_cast
  ring

/-- C6: parsing a 24-byte calibration block (as the calibration-init step
does) yields T1 as the unsigned little-endian 16-bit value of bytes 0-1,
T2 and T3 as the signed little-endian 16-bit values of bytes 2-3 and 4-5,
P1 as the unsigned little-endian 16-bit value of bytes 6-7, and P2..P9 as
the signed little-endian 16-bit values of the remaining consecutive pairs
(`wrap 16` is the two's-complement reinterpretation). -/
theorem C6_calib_block_parsing
    (b0 b1 b2 b3 b4 b5 b6 b7 b8 b9 b10 b11 b12 b13 b14 b15 b16 b17 b18 b19
      b20 b21 b22 b23 : Nat)
    (h0 : b0 < 256) (h2 : b2 < 256) (h4 : b4 < 256) (h6 : b6 < 256)
    (h8 : b8 < 256) (h10 : b10 < 256) (h12 : b12 < 256) (h14 : b14 < 256)
    (h16 : b16 < 256) (h18 : b18 < 256) (h20 : b20 < 256) (h22 : b22 < 256)
    (s : DriverState)
    (hbuf : s.readBuf = [b0, b1, b2, b3, b4, b5, b6, b7, b8, b9, b10, b11,
      b12, b13, b14, b15, b16, b17, b18, b19, b20, b21, b22, b23]) :
    (init_meas_part_2 s IO_RC_OK).state.calibTemp =
      { dig_T1 := (b0 : Int) + 256 * (b1 : Int)
      , dig_T2 := wrap 16 ((b2 : Int) + 256 * (b3 : Int))
      , dig_T3 := wrap 16 ((b4 : Int) + 256 * (b5 : Int)) }
  ∧ (init_meas_part_2 s IO_RC_OK).state.calibPres =
      { dig_P1 := (b6 : Int) + 256 * (b7 : Int)
      , dig_P2 := wrap 16 ((b8 : Int) + 256 * (b9 : Int))
      , dig_P3 := wrap 16 ((b10 : Int) + 256 * (b11 : Int))
      , dig_P4 := wrap 16 ((b12 : Int) + 256 * (b13 : Int))
      , dig_P5 := wrap 16 ((b14 : Int) + 256 * (b15 : Int))
      , dig_P6 := wrap 16 ((b16 : Int) + 256 * (b17 : Int))
      , dig_P7 := wrap 16 ((b18 : Int) + 256 * (b19 : Int))
      , dig_P8 := wrap 16 ((b20 : Int) + 256 * (b21 : Int))
      , dig_P9 := wrap 16 ((b22 : Int) + 256 * (b23 : Int)) } := by
  constructor
  · simp only [init_meas_part_2, hbuf, finish_sequence, bne_self_eq_false,
      Bool.false_eq_true, if_false, convert_temp_calib_reg_vals_to_calib_values,
      byteAt_cons_zero, byteAt_cons_succ, List.drop,
      le16_unsigned b0 b1 h0, le16_signed b2 b3 h2, le16_signed b4 b5 h4]
  · simp only [init_meas_part_2, hbuf, finish_sequence, bne_self_eq_false,
      Bool.false_eq_true, if_false, convert_pres_calib_reg_vals_to_calib_values,
      byteAt_cons_zero, byteAt_cons_succ, List.drop,
      le16_unsigned b6 b7 h6, le16_signed b8 b9 h8, le16_signed b10 b11 h10,
      le16_signed b12 b13 h12, le16_signed b14 b15 h14, le16_signed b16 b17 h16,
      le16_signed b18 b19 h18, le16_signed b20 b21 h20, le16_signed b22 b23 h22]

/-- Witness for C6: the reference calibration block parses to the reference
coefficient sets. -/
theorem C6_calib_block_parsing_witness :
    (init_meas_part_2 { busyState with readBuf := defaultCalibBytes }
        IO_RC_OK).state.calibTemp = refCalibTemp
  ∧ (init_meas_part_2 { busyState with readBuf := defaultCalibBytes }
        IO_RC_OK).state.calibPres = refCalibPres := by
  have h := C6_calib_block_parsing 0x70 0x6B 0x43 0x67 0x18 0xFC 0x7D 0x8E
    0x43 0xD6 0xD0 0x0B 0x27 0x0B 0x8C 0x00 0xF9 0xFF 0x8C 0x3C 0xF8 0xC6
    0x70 0x17 (by decide) (by decide) (by decide) (by decide) (by decide)
    (by decide) (by decide) (by decide) (by decide) (by decide) (by decide)
    (by decide) { busyState with readBuf := defaultCalibBytes } (by decide)
  refine ⟨h.1.trans ?_, h.2.trans ?_⟩
  · simp only [wrap]
    decide
  · simp only [wrap]
    decide

/-- C8: the reset-with-delay command writes the reset magic 0xB6 to the
reset register 0xE0 as its first and only register access; on write success
it starts the fixed 2 ms timer and delivers OK on expiry; on write failure
it delivers IO_ERROR and never starts the timer. -/
theorem C8_reset_with_delay_sequence (s : DriverState) (hb : s.busy = false) :
    run_reset_with_delay s true IO_RC_OK
      = ([Request.writeReg 0xE0 0xB6, Request.startTimer 2], [RC_OK])
  ∧ (∀ io, io ≠ IO_RC_OK →
      run_reset_with_delay s true io
        = ([Request.writeReg 0xE0 0xB6], [RC_IO_ERR])) := by
  constructor
  · simp [run_reset_with_delay, bmp280_reset_with_delay, hb, start_sequence,
      reset_with_delay_part_2, reset_with_delay_part_3, finish_sequence]
  · intro io hio
    have hio' : (io == IO_RC_OK) = false := by simpa using hio
    simp [run_reset_with_delay, bmp280_reset_with_delay, hb, start_sequence,
      reset_with_delay_part_2, finish_sequence, hio', hio]

/-- Witness for C8 at the sample idle instance. -/
theorem C8_reset_with_delay_sequence_witness :
    run_reset_with_delay idleState true IO_RC_OK
      = ([Request.writeReg 0xE0 0xB6, Request.startTimer 2], [RC_OK])
  ∧ run_reset_with_delay idleState true IO_RC_ERR
      = ([Request.writeReg 0xE0 0xB6], [RC_IO_ERR]) :=
  ⟨(C8_reset_with_delay_sequence idleState rfl).1,
   (C8_reset_with_delay_sequence idleState rfl).2 IO_RC_ERR (by decide)⟩

/-- C9: for two get-chip-id executions differing only in the identifier
byte returned by the read (same IO status), the delivered result code is
identical; it is OK exactly when the IO status is OK, regardless of the
identifier value, which flows only into the caller's output byte. -/
theorem C9_chip_id_not_validated (s : DriverState) (hb : s.busy = false)
    (byte1 byte2 io : Nat) :
    (run_get_chip_id s true byte1 io).2 = (run_get_chip_id s true byte2 io).2
  ∧ (run_get_chip_id s true byte1 io).2
      = [if io == IO_RC_OK then RC_OK else RC_IO_ERR]
  ∧ (run_get_chip_id s true byte1 io).1 = byte1 := by
  refine ⟨?_, ?_, ?_⟩ <;>
    simp [run_get_chip_id, bmp280_get_chip_id, hb, start_sequence,
      generic_io_complete_cb, finish_sequence]

/-- Witness for C9 at the expected id 0x58 and the wrong id 0x59. -/
theorem C9_chip_id_not_validated_witness :
    (run_get_chip_id idleState true 0x58 IO_RC_OK).2
      = (run_get_chip_id idleState true 0x59 IO_RC_OK).2
  ∧ (run_get_chip_id idleState true 0x59 IO_RC_OK).2 = [RC_OK] :=
  ⟨(C9_chip_id_not_validated idleState rfl 0x58 0x59 IO_RC_OK).1,
   ((C9_chip_id_not_validated idleState rfl 0x59 0x58 IO_RC_OK).2.1).trans
     (by decide)⟩

set_option maxRecDepth 512

/-- The `pressure` projection of a built `Meas` value. -/
theorem meas_pressure_mk (t p : Int) : (Meas.mk t p).pressure = p := rfl

/-- On a failed register read, the terminal measurement step finishes the
sequence with `RC_IO_ERR` and performs no compensation. -/
theorem part5_fail_state (s : DriverState) (io : Nat)
    (hio : (io != IO_RC_OK) = true) :
    read_meas_forced_mode_part_5 s io = finish_sequence s RC_IO_ERR := by
  unfold read_meas_forced_mode_part_5
  rw [if_pos hio]

/-- Finishing a sequence does not touch the output structure. -/
theorem finish_measOut_pressure (s : DriverState) :
    (finish_sequence s RC_IO_ERR).state.measOut.pressure = s.measOut.pressure := rfl

/-- In a temperature-only measurement that completes with OK, the terminal
step rewrites the output structure with a new temperature and the prior
pressure value. -/
theorem part5_temp_write (s : DriverState)
    (h : s.measType = MEAS_TYPE_ONLY_TEMP) :
    (read_meas_forced_mode_part_5 s IO_RC_OK).state.measOut
      = { s.measOut with temperature :=
          (compensate_temp s.calibTemp (temp_pres_bytes_to_raw_val
            (byteAt s.readBuf 0) (byteAt s.readBuf 1) (byteAt s.readBuf 2))).1 } := by
  unfold read_meas_forced_mode_part_5
  rw [h]
  rw [if_neg (by decide : ¬((IO_RC_OK != IO_RC_OK) = true))]
  rw [if_neg (by decide : ¬((!(MEAS_TYPE_ONLY_TEMP == MEAS_TYPE_ONLY_TEMP
      || MEAS_TYPE_ONLY_TEMP == MEAS_TYPE_TEMP_AND_PRES)) = true))]
  simp only [MEAS_TYPE_ONLY_TEMP, MEAS_TYPE_TEMP_AND_PRES, finish_sequence]
  simp only [show (((0 : Nat) == 1)) = false from rfl, Bool.false_eq_true,
    if_false, Nat.zero_add]

/-- In a temperature-only measurement the terminal step preserves the
pressure field of the output structure for every IO outcome. -/
theorem part5_pressure_frame (s : DriverState)
    (h : s.measType = MEAS_TYPE_ONLY_TEMP) (io : Nat) :
    (read_meas_forced_mode_part_5 s io).state.measOut.pressure
      = s.measOut.pressure := by
  by_cases hc : (io != IO_RC_OK) = true
  · exact (congrArg (fun o => o.state.measOut.pressure)
      (part5_fail_state s io hc)).trans (finish_measOut_pressure s)
  · have hio : io = IO_RC_OK := by simpa using hc
    subst hio
    exact (congrArg Meas.pressure (part5_temp_write s h)).trans
      (meas_pressure_mk _ _)

/-- The forced-mode write step never touches the output structure. -/
theorem part2_measOut_frame (s : DriverState) (io : Nat) :
    (read_meas_forced_mode_part_2 s io).state.measOut = s.measOut := by
  unfold read_meas_forced_mode_part_2
  split <;> rfl

/-- The timer-start step never touches the output structure. -/
theorem part3_measOut_frame (s : DriverState) (io : Nat) :
    (read_meas_forced_mode_part_3 s io).state.measOut = s.measOut := by
  unfold read_meas_forced_mode_part_3
  split <;> rfl

/-- The raw-register read step never touches the output structure. -/
theorem part4_measOut_frame (s : DriverState)
    (h : s.measType = MEAS_TYPE_ONLY_TEMP) :
    (read_meas_forced_mode_part_4 s).state.measOut = s.measOut := by
  unfold read_meas_forced_mode_part_4
  rw [h]
  rfl

/-- C10: in a temperature-only forced-mode measurement, the terminal step
writes only the temperature field of the caller's output structure — the
pressure field keeps its prior value — and no other step of the sequence
touches the output structure at all. -/
theorem C10_only_temp_leaves_pressure (s : DriverState)
    (h : s.measType = MEAS_TYPE_ONLY_TEMP) :
    (∀ io, (read_meas_forced_mode_part_5 s io).state.measOut.pressure
      = s.measOut.pressure)
  ∧ (read_meas_forced_mode_part_5 s IO_RC_OK).state.measOut
      = { s.measOut with temperature :=
          (compensate_temp s.calibTemp (temp_pres_bytes_to_raw_val
            (byteAt s.readBuf 0) (byteAt s.readBuf 1) (byteAt s.readBuf 2))).1 }
  ∧ (∀ io, (read_meas_forced_mode_part_2 s io).state.measOut = s.measOut)
  ∧ (∀ io, (read_meas_forced_mode_part_3 s io).state.measOut = s.measOut)
  ∧ (read_meas_forced_mode_part_4 s).state.measOut = s.measOut :=
  ⟨part5_pressure_frame s h, part5_temp_write s h,
   part2_measOut_frame s, part3_measOut_frame s, part4_measOut_frame s h⟩

/-- Witness for C10 at a sample temperature-only instance with a marked
pressure value. -/
theorem C10_only_temp_leaves_pressure_witness :
    (read_meas_forced_mode_part_5 tempOnlyState IO_RC_OK).state.measOut.pressure
      = tempOnlyState.measOut.pressure :=
  (C10_only_temp_leaves_pressure tempOnlyState rfl).1 IO_RC_OK

set_option maxRecDepth 4096

/-- C5: the set-filter-coefficient and set-interface-wire-mode commands each
read the CONFIG register 0xF5 first, then write it back with only the
target bit-field replaced (bits [4:2] with the encoded filter coefficient,
bit [0] with the wire-mode encoding, all other bits preserved), and deliver
OK or IO_ERROR through the completion callback. -/
theorem C5_config_read_modify_write (s : DriverState) (hb : s.busy = false)
    (c w b : Nat) (hc : is_valid_filter_coeff c = true)
    (hw : is_valid_spi_3_wire w = true) (hbyte : b < 256) :
    run_set_filter_coefficient s true c IO_RC_OK b IO_RC_OK
      = ([Request.readRegs 0xF5 1,
          Request.writeReg 0xF5 (filter_coeff_write_val b c)], [RC_OK])
  ∧ run_set_spi_3_wire_interface s true w IO_RC_OK b IO_RC_OK
      = ([Request.readRegs 0xF5 1,
          Request.writeReg 0xF5 (spi_3_wire_write_val b w)], [RC_OK])
  ∧ (∀ io, io ≠ IO_RC_OK →
      run_set_filter_coefficient s true c io b IO_RC_OK
        = ([Request.readRegs 0xF5 1], [RC_IO_ERR])
      ∧ run_set_spi_3_wire_interface s true w io b IO_RC_OK
        = ([Request.readRegs 0xF5 1], [RC_IO_ERR]))
  ∧ (∀ io, io ≠ IO_RC_OK →
      run_set_filter_coefficient s true c IO_RC_OK b io
        = ([Request.readRegs 0xF5 1,
            Request.writeReg 0xF5 (filter_coeff_write_val b c)], [RC_IO_ERR])
      ∧ run_set_spi_3_wire_interface s true w IO_RC_OK b io
        = ([Request.readRegs 0xF5 1,
            Request.writeReg 0xF5 (spi_3_wire_write_val b w)], [RC_IO_ERR]))
  ∧ ((filter_coeff_write_val b c >>> 2) &&& 0x7 = c
      ∧ ∀ i, i < 8 → i < 2 ∨ 5 ≤ i →
          (filter_coeff_write_val b c).testBit i = b.testBit i)
  ∧ (spi_3_wire_write_val b w &&& 0x1 = w
      ∧ ∀ i, i < 8 → 1 ≤ i →
          (spi_3_wire_write_val b w).testBit i = b.testBit i) := by
  have hc5 : c < 5 := by
    simp only [is_valid_filter_coeff, Bool.or_eq_true, beq_iff_eq] at hc
    omega
  have hw2 : w < 2 := by
    simp only [is_valid_spi_3_wire, Bool.or_eq_true, beq_iff_eq] at hw
    omega
  refine ⟨?_, ?_, ?_, ?_, ?_, ?_⟩
  · simp [run_set_filter_coefficient, bmp280_set_filter_coefficient, hc, hb,
      start_sequence, set_filter_coefficient_part_2, generic_io_complete_cb,
      finish_sequence, byteAt_cons_zero]
  · simp [run_set_spi_3_wire_interface, bmp280_set_spi_3_wire_interface, hw, hb,
      start_sequence, set_spi_3_wire_part_2, generic_io_complete_cb,
      finish_sequence, byteAt_cons_zero]
  · intro io hio
    have hio' : (io == IO_RC_OK) = false := by simpa using hio
    constructor
    · simp [run_set_filter_coefficient, bmp280_set_filter_coefficient, hc, hb,
        start_sequence, set_filter_coefficient_part_2, finish_sequence, hio', hio]
    · simp [run_set_spi_3_wire_interface, bmp280_set_spi_3_wire_interface, hw,
        hb, start_sequence, set_spi_3_wire_part_2, finish_sequence, hio', hio]
  · intro io hio
    have hio' : (io == IO_RC_OK) = false := by simpa using hio
    constructor
    · simp [run_set_filter_coefficient, bmp280_set_filter_coefficient, hc, hb,
        start_sequence, set_filter_coefficient_part_2, generic_io_complete_cb,
        finish_sequence, hio', hio, byteAt_cons_zero]
    · simp [run_set_spi_3_wire_interface, bmp280_set_spi_3_wire_interface, hw,
        hb, start_sequence, set_spi_3_wire_part_2, generic_io_complete_cb,
        finish_sequence, hio', hio, byteAt_cons_zero]
  · have key : ∀ b < 256, ∀ c < 5,
        (filter_coeff_write_val b c >>> 2) &&& 0x7 = c
          ∧ ∀ i, i < 8 → i < 2 ∨ 5 ≤ i →
              (filter_coeff_write_val b c).testBit i = b.testBit i := by
      decide
    exact key b hbyte c hc5
  · have key : ∀ b < 256, ∀ w < 2,
        spi_3_wire_write_val b w &&& 0x1 = w
          ∧ ∀ i, i < 8 → 1 ≤ i →
              (spi_3_wire_write_val b w).testBit i = b.testBit i := by
      decide
    exact key b hbyte w hw2

/-- Witness for C5 at CONFIG byte 0x5A, filter coefficient 2 (encoding 1)
and wire mode enabled. -/
theorem C5_config_read_modify_write_witness :
    run_set_filter_coefficient idleState true 1 IO_RC_OK 0x5A IO_RC_OK
      = ([Request.readRegs 0xF5 1, Request.writeReg 0xF5 0x46], [RC_OK])
  ∧ run_set_spi_3_wire_interface idleState true 1 IO_RC_OK 0x5A IO_RC_OK
      = ([Request.readRegs 0xF5 1, Request.writeReg 0xF5 0x5B], [RC_OK]) :=
  ⟨((C5_config_read_modify_write idleState rfl 1 1 0x5A (by decide) (by decide)
      (by decide)).1).trans (by decide),
   ((C5_config_read_modify_write idleState rfl 1 1 0x5A (by decide) (by decide)
      (by decide)).2.1).trans (by decide)⟩

end BMP280
